import Mathlib

/-!
Shallow embedding of the car-album client scripts.

The repository holds five browser scripts: three variants of a like-toggle
handler (src/unnamed/part_000, part_001, part_002), an image modal
controller (src/static/modal.js) and a ranking loader
(src/static/ranking.js).  Each script is embedded below as pure Lean
functions over explicit state: a like button element becomes a record of
the DOM attributes and child text nodes the scripts read and write, a
settled fetch call becomes a value of FetchOutcome, and the visible side
effects (requests, alert boxes, redirects) become an explicit effect list.
Event dispatch order (capturing versus bubbling phase, stopPropagation,
preventDefault) is embedded as a small executable model of the DOM
dispatch algorithm restricted to what the scripts use.
-/

/-- Parsed JSON body of a like endpoint response:
{ ok, liked, likes, error? } as described by the API contract. -/
structure RespBody where
  ok : Bool
  error : Option String
  liked : Bool
  likes : Nat
deriving DecidableEq

/-- A settled fetch call: either an HTTP response whose body may fail to
parse as JSON (body = none means res.json() throws), or a rejected
promise (network error). -/
inductive FetchOutcome where
  | response (status : Nat) (body : Option RespBody)
  | networkError
deriving DecidableEq

/-- res.ok of the Fetch API: the status is in the 2xx range. -/
def resOk (status : Nat) : Bool :=
  decide (200 ≤ status) && decide (status < 300)

/-- JavaScript disjunction (a || b) on an optional string: an absent or
empty string is falsy and falls through to the fallback. -/
def jsOrElse (s : Option String) (fallback : String) : String :=
  match s with
  | some v => if v = "" then fallback else v
  | none => fallback

/-- State of one like button element together with its optional
.like-icon and .like-count children.  loading models dataset.loading
being the string "1", isLoading models the is-loading class, active the
active class; icon and count are the text contents of the child nodes
when those children exist. -/
structure LikeButton where
  postId : Option String
  loading : Bool
  disabled : Bool
  isLoading : Bool
  active : Bool
  ariaPressed : Option String
  datasetLiked : Option String
  icon : Option String
  count : Option String
deriving DecidableEq

/-- Externally visible side effects of a handler invocation, in order:
issued HTTP requests, alert dialogs, and location redirects. -/
inductive Effect where
  | request (url : String)
  | alert (msg : String)
  | redirect (url : String)
deriving DecidableEq

/-- The displayed liked-state and count of a button: the active class,
the aria-pressed attribute, the data-liked attribute, the icon glyph and
the count text.  The in-flight and disabled flags are deliberately not
part of this projection. -/
def displayed (b : LikeButton) :
    Bool × Option String × Option String × Option String × Option String :=
  (b.active, b.ariaPressed, b.datasetLiked, b.icon, b.count)

/-- Update one slot of a button list through a function, leaving the
list unchanged when the index is out of range. -/
def setBtn (page : List LikeButton) (i : Nat) (f : LikeButton → LikeButton) :
    List LikeButton :=
  match page[i]? with
  | none => page
  | some b => page.set i (f b)

namespace Part000

/-- src/unnamed/part_000 lines 40 to 51: after a successful response the
handler rewrites the count text, the data-liked attribute, the active
class, aria-pressed and the icon glyph of the clicked button only. -/
def applyUpdate (btn : LikeButton) (liked : Bool) (likes : Nat) : LikeButton :=
  { btn with
    count := btn.count.map (fun _ => toString likes),
    datasetLiked := some (if liked then "1" else "0"),
    active := liked,
    ariaPressed := some (if liked then "true" else "false"),
    icon := btn.icon.map (fun _ => if liked then "❤️" else "🤍") }

/-- The try and catch bodies of the part_000 click handler once the
fetch has settled: 401 alerts the login notice, other non-2xx statuses
alert the API failure notice, a body that fails to parse throws into the
catch which alerts the connection notice, a payload with ok false alerts
its error string or the generic fallback, and a success applies the
update. -/
def processOutcome (btn : LikeButton) (out : FetchOutcome) :
    LikeButton × List Effect :=
  match out with
  | .networkError => (btn, [.alert "通信エラー"])
  | .response status body =>
    if status = 401 then (btn, [.alert "ログインしてね"])
    else if !resOk status then (btn, [.alert "いいね失敗（APIエラー）"])
    else match body with
      | none => (btn, [.alert "通信エラー"])
      | some data =>
        if !data.ok then (btn, [.alert (jsOrElse data.error "いいね失敗")])
        else (applyUpdate btn data.liked data.likes, [])

/-- src/unnamed/part_000 lines 11 to 17: the synchronous prefix of the
click handler up to issuing the fetch.  Returns the possibly updated
button and whether a request is issued: a missing post id or an already
set loading flag is a no-op, otherwise the loading flag and the disabled
attribute are set. -/
def beginClick (btn : LikeButton) : LikeButton × Bool :=
  match btn.postId with
  | none => (btn, false)
  | some _ =>
    if btn.loading then (btn, false)
    else ({ btn with loading := true, disabled := true }, true)

/-- The finally block of part_000: clear the loading flag and re-enable
the button. -/
def finallyClear (btn : LikeButton) : LikeButton :=
  { btn with loading := false, disabled := false }

/-- The whole part_000 click handler for a click whose closest .js-like
element is btn, parameterised by how the single fetch settles.  The
effect list records the issued request followed by any alerts. -/
def clickHandler (btn : LikeButton) (out : FetchOutcome) :
    LikeButton × List Effect :=
  match btn.postId with
  | none => (btn, [])
  | some pid =>
    if btn.loading then (btn, [])
    else
      let b1 := { btn with loading := true, disabled := true }
      let r := processOutcome b1 out
      (finallyClear r.1, Effect.request ("/api/like/" ++ pid) :: r.2)

/-- The part_000 handler lifted to a page of .js-like buttons: only the
clicked slot i is read and written, all other buttons are untouched. -/
def clickHandlerPage (page : List LikeButton) (i : Nat) (out : FetchOutcome) :
    List LikeButton × List Effect :=
  match page[i]? with
  | none => (page, [])
  | some btn =>
    let r := clickHandler btn out
    (page.set i r.1, r.2)

end Part000

namespace Part001

/-- Return value of postJson in src/unnamed/part_001: res.ok, the
status, and the parsed body or null. -/
structure JsResult where
  ok : Bool
  status : Nat
  data : Option RespBody
deriving DecidableEq

/-- src/unnamed/part_001 lines 4 to 13: POST and parse the body,
swallowing any JSON parse error (data stays null).  A rejected fetch is
not caught, so a network error propagates out (modelled by none). -/
def postJson (out : FetchOutcome) : Option JsResult :=
  match out with
  | .networkError => none
  | .response status body =>
    some { ok := resOk status, status := status, data := body }

/-- setLikeBtnState from part_001: rewrite the active class, data-liked,
aria-pressed, the icon glyph and the count text of the given button. -/
def setLikeBtnState (btn : LikeButton) (liked : Bool) (likes : Nat) :
    LikeButton :=
  { btn with
    active := liked,
    datasetLiked := some (if liked then "1" else "0"),
    ariaPressed := some (if liked then "true" else "false"),
    icon := btn.icon.map (fun _ => if liked then "❤️" else "🤍"),
    count := btn.count.map (fun _ => toString likes) }

/-- handlePostLike from part_001.  Result: the new button state, the
effect list, and whether an exception escaped the handler (a rejected
fetch is unhandled there; only the finally block runs).  The failure
branch is silent except for the login_required redirect; on success
setLikeBtnState runs and then the finally block removes is-loading. -/
def handlePostLike (btn : LikeButton) (out : FetchOutcome) :
    LikeButton × List Effect × Bool :=
  if btn.isLoading then (btn, [], false)
  else match btn.postId with
  | none => (btn, [], false)
  | some pid =>
    let b1 := { btn with isLoading := true }
    let req := Effect.request ("/api/like/" ++ pid)
    match postJson out with
    | none => ({ b1 with isLoading := false }, [req], true)
    | some r =>
      match r.data with
      | none => ({ b1 with isLoading := false }, [req], false)
      | some d =>
        if !r.ok || !d.ok then
          if d.error = some "login_required" then
            ({ b1 with isLoading := false }, [req, .redirect "/login"], false)
          else ({ b1 with isLoading := false }, [req], false)
        else
          ({ setLikeBtnState b1 d.liked d.likes with isLoading := false },
           [req], false)

end Part001

namespace Part002

/-- src/unnamed/part_002 lines 6 to 19 (updateButtons): update every
.js-like button on the page whose data-post-id equals postId with the
new liked state and count. -/
def updateButtons (page : List LikeButton) (postId : String)
    (liked : Bool) (likes : Nat) : List LikeButton :=
  page.map (fun btn =>
    if btn.postId = some postId then
      { btn with
        datasetLiked := some (if liked then "1" else "0"),
        active := liked,
        ariaPressed := some (if liked then "true" else "false"),
        icon := btn.icon.map (fun _ => if liked then "❤️" else "🤍"),
        count := btn.count.map (fun _ => toString likes) }
    else btn)

/-- The try and catch bodies of toggleLike in part_002 once the fetch
has settled, acting on the whole page: the same alert branches as
part_000, but a success calls updateButtons for the post id. -/
def processOutcome (page : List LikeButton) (postId : String)
    (out : FetchOutcome) : List LikeButton × List Effect :=
  match out with
  | .networkError => (page, [.alert "通信エラー"])
  | .response status body =>
    if status = 401 then (page, [.alert "ログインしてね"])
    else if !resOk status then (page, [.alert "いいね失敗（APIエラー）"])
    else match body with
      | none => (page, [.alert "通信エラー"])
      | some data =>
        if !data.ok then (page, [.alert (jsOrElse data.error "いいね失敗")])
        else (updateButtons page postId data.liked data.likes, [])

/-- src/unnamed/part_002 lines 21 to 28: the synchronous prefix of
toggleLike on the clicked button, up to issuing the fetch.  A missing
post id or a set loading flag is a no-op; otherwise the loading flag,
the disabled attribute and the is-loading class are all set. -/
def beginToggle (btn : LikeButton) : LikeButton × Bool :=
  match btn.postId with
  | none => (btn, false)
  | some _ =>
    if btn.loading then (btn, false)
    else ({ btn with loading := true, disabled := true, isLoading := true },
          true)

/-- toggleLike from part_002 acting on the page, with the clicked button
at slot i.  Sets the in-flight flags on the clicked button, settles the
fetch through processOutcome and then the finally block clears the
flags on the clicked button. -/
def toggleLike (page : List LikeButton) (i : Nat) (out : FetchOutcome) :
    List LikeButton × List Effect :=
  match page[i]? with
  | none => (page, [])
  | some btn =>
    match btn.postId with
    | none => (page, [])
    | some pid =>
      if btn.loading then (page, [])
      else
        let page1 :=
          page.set i { btn with loading := true, disabled := true,
                                isLoading := true }
        let r := processOutcome page1 pid out
        (setBtn r.1 i (fun b =>
           { b with loading := false, disabled := false, isLoading := false }),
         Effect.request ("/api/like/" ++ pid) :: r.2)

end Part002

/-- Run a given synchronous click step n times from a button state,
counting how many of the clicks issue a request.  This models a burst of
repeated clicks arriving while no settle event occurs in between. -/
def repeatClicks (step : LikeButton → LikeButton × Bool) :
    Nat → LikeButton → LikeButton × Nat
  | 0, b => (b, 0)
  | n + 1, b =>
    let s := step b
    let r := repeatClicks step n s.1
    (r.1, (if s.2 then 1 else 0) + r.2)

/-- A registered DOM event listener in the dispatch model.  node is the
element it is attached to, useCapture the third argument of
addEventListener, and the three flags say whether its body calls
stopPropagation, stopImmediatePropagation and preventDefault on the
event. -/
structure EventListener where
  id : Nat
  node : Nat
  useCapture : Bool
  callsStop : Bool
  callsStopImmediate : Bool
  callsPrevent : Bool
deriving DecidableEq

/-- State threaded through an event dispatch: the ids of the listeners
that have run, in order, the propagation-stopped flags and whether the
default action was cancelled. -/
structure DispatchState where
  ran : List Nat
  stopped : Bool
  stoppedImmediate : Bool
  prevented : Bool
deriving DecidableEq

/-- Invoke one listener: a stop-immediate by an earlier listener at the
same node suppresses it, otherwise its id is recorded and its calls
update the event flags. -/
def runListener (s : DispatchState) (l : EventListener) : DispatchState :=
  if s.stoppedImmediate then s
  else
    { ran := s.ran ++ [l.id],
      stopped := s.stopped || l.callsStop || l.callsStopImmediate,
      stoppedImmediate := s.stoppedImmediate || l.callsStopImmediate,
      prevented := s.prevented || l.callsPrevent }

/-- Run all listeners of the given phase attached to one node, in
registration order; if propagation was stopped at an earlier node the
node is skipped entirely. -/
def runNode (ls : List EventListener) (cap : Bool) (s : DispatchState)
    (node : Nat) : DispatchState :=
  if s.stopped then s
  else (ls.filter (fun l => l.node == node && l.useCapture == cap)).foldl
    runListener s

/-- Dispatch an event along a propagation path (outermost node, the
document, first; the click target last): the capturing phase walks the
path downwards firing capture listeners, then the bubbling phase walks
it upwards firing the others. -/
def dispatch (path : List Nat) (ls : List EventListener) : DispatchState :=
  let s1 := path.foldl (runNode ls true) ⟨[], false, false, false⟩
  path.reverse.foldl (runNode ls false) s1

/-- The document-level click listener of src/unnamed/part_000 as it
behaves when the click lands inside a .js-like element: registered with
capture true, it calls preventDefault and stopPropagation. -/
def likeListener000 (doc : Nat) (i : Nat) : EventListener :=
  { id := i, node := doc, useCapture := true, callsStop := true,
    callsStopImmediate := false, callsPrevent := true }

/-- The document-level click listener of src/unnamed/part_002 for a
click inside a .js-like element: registered with capture true, it calls
preventDefault, stopPropagation and stopImmediatePropagation. -/
def likeListener002 (doc : Nat) (i : Nat) : EventListener :=
  { id := i, node := doc, useCapture := true, callsStop := true,
    callsStopImmediate := true, callsPrevent := true }

/-- The document-level click listener of src/unnamed/part_001 for a
click inside a .js-like element: registered without a capture argument,
hence in the bubbling phase, it calls preventDefault and
stopPropagation. -/
def likeListener001 (doc : Nat) (i : Nat) : EventListener :=
  { id := i, node := doc, useCapture := false, callsStop := true,
    callsStopImmediate := false, callsPrevent := true }

/-- State of the image modal overlay and of the page body: the open
class on the overlay, its aria-hidden attribute, the src of the modal
image and the overflow style of the body. -/
structure ModalState where
  isOpen : Bool
  ariaHidden : Option String
  imgSrc : String
  bodyOverflow : String
deriving DecidableEq

namespace Modal

/-- openModal from src/static/modal.js: a falsy (empty) source is a
no-op; otherwise set the image source, add the open class, set
aria-hidden to false and suppress page scroll. -/
def openModal (src : String) (m : ModalState) : ModalState :=
  if src = "" then m
  else { m with imgSrc := src, isOpen := true, ariaHidden := some "false",
                bodyOverflow := "hidden" }

/-- closeModal from src/static/modal.js: remove the open class, set
aria-hidden to true, clear the image source and restore page scroll. -/
def closeModal (m : ModalState) : ModalState :=
  { m with isOpen := false, ariaHidden := some "true", imgSrc := "",
           bodyOverflow := "" }

/-- What the click landed on, as the listener resolves it with closest:
an img.post-image element (with its optional data-full attribute and its
current src), a close control carrying data-close, or anything else. -/
inductive ClickTarget where
  | image (full : Option String) (src : String)
  | closer
  | other
deriving DecidableEq

/-- The JavaScript disjunction img.dataset.full || img.src: an absent or
empty data-full attribute falls through to the displayed source. -/
def resolveSrc (full : Option String) (src : String) : String :=
  match full with
  | some s => if s = "" then src else s
  | none => src

/-- The document click listener of modal.js: an image click opens the
modal on the resolved source, a close control closes it, any other
click is ignored. -/
def clickHandler (t : ClickTarget) (m : ModalState) : ModalState :=
  match t with
  | .image full src => openModal (resolveSrc full src) m
  | .closer => closeModal m
  | .other => m

/-- The document keydown listener of modal.js: Escape closes the modal
only when the open class is present. -/
def keydownHandler (key : String) (m : ModalState) : ModalState :=
  if key = "Escape" && m.isOpen then closeModal m else m

end Modal

/-- One entry of the ranking response array. -/
structure RankEntry where
  username : String
  car_name : String
  likes : Nat
deriving DecidableEq

/-- One rendered li element of the ranking list: its classes and the
text of its three child spans. -/
structure RankItem where
  classes : List String
  rankNo : String
  rankName : String
  rankLike : String
deriving DecidableEq

namespace Ranking

/-- The body of the forEach in loadRanking: build one li with class
ranking-item (plus rank-1 for index 0), the 1-based rank number, the
"username / car_name" label and the heart glyph with the like count. -/
def renderItem (index : Nat) (item : RankEntry) : RankItem :=
  { classes := if index = 0 then ["ranking-item", "rank-1"] else ["ranking-item"],
    rankNo := toString (index + 1),
    rankName := item.username ++ " / " ++ item.car_name,
    rankLike := "❤️ " ++ toString item.likes }

/-- loadRanking from src/static/ranking.js: read the selected period,
request the ranking for it, clear the previously rendered list
(innerHTML set to the empty string) and append one rendered item per
entry of the response, in response order.  Returns the requested URL
and the final rendered list. -/
def loadRanking (period : String) (_old : List RankItem)
    (data : List RankEntry) : String × List RankItem :=
  let cleared : List RankItem := []
  ("/ranking?period=" ++ period,
   data.enum.foldl (fun acc p => acc ++ [renderItem p.1 p.2]) cleared)

end Ranking

/-- A concrete idle like button bound to post id 42, not liked, count 3,
used as the sample input of several witnesses (the scenario of the
spec). -/
def idleBtn : LikeButton :=
  { postId := some "42", loading := false, disabled := false,
    isLoading := false, active := false, ariaPressed := some "false",
    datasetLiked := some "0", icon := some "🤍", count := some "3" }

theorem foldl_append_eq_map {α β : Type} (f : α → β) :
    ∀ (l : List α) (acc : List β),
      l.foldl (fun a x => a ++ [f x]) acc = acc ++ l.map f
  | [], acc => by simp
  | x :: l, acc => by
    rw [List.foldl_cons, foldl_append_eq_map f l (acc ++ [f x])]
    simp

/-- C7 (confirmed): clicking an image while the modal is closed opens it
on the data-full source when a non-empty one is present, else on the
displayed src; when neither resolves to a non-empty source the state is
unchanged; on open the overlay gets the open class, aria-hidden false
and page scroll is suppressed. -/
theorem modal_opens_on_image_click (m : ModalState) (full : Option String)
    (src : String) (_hclosed : m.isOpen = false) :
    (∀ f, full = some f → f ≠ "" →
      Modal.clickHandler (.image full src) m =
        { m with imgSrc := f, isOpen := true, ariaHidden := some "false",
                 bodyOverflow := "hidden" }) ∧
    (full = none → src ≠ "" →
      Modal.clickHandler (.image full src) m =
        { m with imgSrc := src, isOpen := true, ariaHidden := some "false",
                 bodyOverflow := "hidden" }) ∧
    (Modal.resolveSrc full src = "" →
      Modal.clickHandler (.image full src) m = m) := by
  refine ⟨?_, ?_, ?_⟩
  · intro f hf hne
    subst hf
    simp [Modal.clickHandler, Modal.resolveSrc, Modal.openModal, hne]
  · intro hf hne
    subst hf
    simp [Modal.clickHandler, Modal.resolveSrc, Modal.openModal, hne]
  · intro hres
    simp [Modal.clickHandler, Modal.openModal, hres]

/-- Witness for C7: the scenario of the spec, an image carrying
data-full /img/full/9.jpg clicked while the modal is closed. -/
theorem modal_opens_on_image_click_witness :
    Modal.clickHandler
        (Modal.ClickTarget.image (some "/img/full/9.jpg") "/img/thumb/9.jpg")
        ⟨false, some "true", "", ""⟩ =
      ⟨true, some "false", "/img/full/9.jpg", "hidden"⟩ := by
  have h := modal_opens_on_image_click ⟨false, some "true", "", ""⟩
    (some "/img/full/9.jpg") "/img/thumb/9.jpg" rfl
  exact h.1 "/img/full/9.jpg" rfl (by decide)

/-- C8 (confirmed): a click on a close control closes the modal
(overlay hidden, aria-hidden true, source cleared, scroll restored), the
Escape key closes it exactly when the open class is present, and Escape
while closed changes nothing. -/
theorem modal_close_paths (m : ModalState) :
    (Modal.clickHandler .closer m = Modal.closeModal m ∧
     (Modal.closeModal m).isOpen = false ∧
     (Modal.closeModal m).ariaHidden = some "true" ∧
     (Modal.closeModal m).imgSrc = "" ∧
     (Modal.closeModal m).bodyOverflow = "") ∧
    (m.isOpen = true → Modal.keydownHandler "Escape" m = Modal.closeModal m) ∧
    (m.isOpen = false → Modal.keydownHandler "Escape" m = m) := by
  refine ⟨⟨rfl, rfl, rfl, rfl, rfl⟩, ?_, ?_⟩
  · intro hopen
    simp [Modal.keydownHandler, hopen]
  · intro hclosed
    simp [Modal.keydownHandler, hclosed]

/-- Witness for C8: Escape pressed on the open modal of the spec
scenario closes it and clears the source; Escape on the resulting
closed modal is a no-op. -/
theorem modal_close_paths_witness :
    Modal.keydownHandler "Escape" ⟨true, some "false", "/img/full/9.jpg", "hidden"⟩ =
      ⟨false, some "true", "", ""⟩ ∧
    Modal.keydownHandler "Escape" ⟨false, some "true", "", ""⟩ =
      ⟨false, some "true", "", ""⟩ := by
  constructor
  · have h := modal_close_paths ⟨true, some "false", "/img/full/9.jpg", "hidden"⟩
    exact (h.2.1 rfl).trans rfl
  · have h := modal_close_paths ⟨false, some "true", "", ""⟩
    exact h.2.2 rfl

/-- C9 (confirmed): loadRanking requests the list for the selected
period, discards the previously rendered list, and renders one item per
entry in response order with the 1-based rank number, the
"username / car_name" label and the heart glyph with the count; only the
first entry carries the rank-1 class. -/
theorem loadRanking_renders (period : String) (old : List RankItem)
    (data : List RankEntry) :
    (Ranking.loadRanking period old data).1 = "/ranking?period=" ++ period ∧
    (Ranking.loadRanking period old data).2 =
      data.enum.map (fun p => Ranking.renderItem p.1 p.2) ∧
    ((Ranking.loadRanking period old data).2).length = data.length ∧
    (∀ (i : Nat) (x : RankEntry), data[i]? = some x →
      ((Ranking.loadRanking period old data).2)[i]? =
        some (Ranking.renderItem i x)) ∧
    (∀ (i : Nat) (x : RankEntry),
      (Ranking.renderItem i x).rankNo = toString (i + 1) ∧
      (Ranking.renderItem i x).rankName = x.username ++ " / " ++ x.car_name ∧
      (Ranking.renderItem i x).rankLike = "❤️ " ++ toString x.likes ∧
      ("rank-1" ∈ (Ranking.renderItem i x).classes ↔ i = 0)) := by
  have hmap : (Ranking.loadRanking period old data).2 =
      data.enum.map (fun p => Ranking.renderItem p.1 p.2) := by
    have h := foldl_append_eq_map
      (fun p : Nat × RankEntry => Ranking.renderItem p.1 p.2) data.enum []
    simpa [Ranking.loadRanking] using h
  refine ⟨rfl, hmap, ?_, ?_, ?_⟩
  · rw [hmap]; simp
  · intro i x hx
    rw [hmap, List.getElem?_map, List.getElem?_enum, hx]
    rfl
  · intro i x
    refine ⟨rfl, rfl, rfl, ?_⟩
    by_cases hi : i = 0 <;> simp [Ranking.renderItem, hi]

/-- Witness for C9: the scenario of the spec; two entries render as two
items, the first carrying rank-1 and displaying "a / X" and the heart
glyph with 10. -/
theorem loadRanking_renders_witness :
    ((Ranking.loadRanking "weekly" [] [⟨"a", "X", 10⟩, ⟨"b", "Y", 5⟩]).2)[0]? =
      some (Ranking.renderItem 0 ⟨"a", "X", 10⟩) ∧
    (Ranking.renderItem 0 (⟨"a", "X", 10⟩ : RankEntry)).rankName = "a / X" ∧
    (Ranking.renderItem 0 (⟨"a", "X", 10⟩ : RankEntry)).rankLike = "❤️ 10" ∧
    ("rank-1" ∈ (Ranking.renderItem 0 (⟨"a", "X", 10⟩ : RankEntry)).classes) ∧
    ("rank-1" ∉ (Ranking.renderItem 1 (⟨"b", "Y", 5⟩ : RankEntry)).classes) := by
  have h := loadRanking_renders "weekly" [] [⟨"a", "X", 10⟩, ⟨"b", "Y", 5⟩]
  refine ⟨h.2.2.2.1 0 ⟨"a", "X", 10⟩ rfl, by decide, by decide, ?_, ?_⟩
  · exact ((h.2.2.2.2 0 ⟨"a", "X", 10⟩).2.2.2).mpr rfl
  · intro hmem
    exact absurd (((h.2.2.2.2 1 ⟨"b", "Y", 5⟩).2.2.2).mp hmem) (by decide)

theorem foldl_runNode_stopped (ls : List EventListener) (cap : Bool) :
    ∀ (l : List Nat) (s : DispatchState), s.stopped = true →
      l.foldl (runNode ls cap) s = s
  | [], _, _ => rfl
  | n :: l, s, h => by
    rw [List.foldl_cons]
    have hn : runNode ls cap s n = s := by simp [runNode, h]
    rw [hn, foldl_runNode_stopped ls cap l s h]

theorem dispatch_capture_doc (doc : Nat) (rest : List Nat)
    (L : EventListener) (anc : List EventListener)
    (hL : L.node = doc) (hcap : L.useCapture = true)
    (hstop : L.callsStop = true)
    (hanc : ∀ l ∈ anc, l.useCapture = false ∧ l.node ≠ doc) :
    dispatch (doc :: rest) (L :: anc) =
      { ran := [L.id], stopped := true,
        stoppedImmediate := L.callsStopImmediate,
        prevented := L.callsPrevent } := by
  have hfilter : (L :: anc).filter
      (fun l => l.node == doc && l.useCapture) = [L] := by
    rw [List.filter_cons_of_pos]
    · rw [List.filter_eq_nil_iff.mpr]
      intro l hl
      obtain ⟨h1, _⟩ := hanc l hl
      simp [h1]
    · simp [hL, hcap]
  have h1 : runNode (L :: anc) true ⟨[], false, false, false⟩ doc =
      { ran := [L.id], stopped := true,
        stoppedImmediate := L.callsStopImmediate,
        prevented := L.callsPrevent } := by
    simp [runNode, hfilter, runListener, hstop]
  simp only [dispatch, List.foldl_cons]
  rw [h1, foldl_runNode_stopped _ _ rest _ rfl,
    foldl_runNode_stopped _ _ _ _ rfl]

/-- C2 (corrected): in the part_000 and part_002 variants the like click
listener sits on the document in the capturing phase, so for any click
whose propagation path starts at the document it runs first, no ancestor
bubbling-phase click handler ever runs, and the default action (a
navigation or an enclosing form submission) is cancelled.  The part_001
variant registers its listener without a capture flag, in the bubbling
phase. -/
theorem like_capture_intercepts :
    (∀ (doc i : Nat) (rest : List Nat) (anc : List EventListener),
      (∀ l ∈ anc, l.useCapture = false ∧ l.node ≠ doc) →
      dispatch (doc :: rest) (likeListener000 doc i :: anc) =
        { ran := [i], stopped := true, stoppedImmediate := false,
          prevented := true }) ∧
    (∀ (doc i : Nat) (rest : List Nat) (anc : List EventListener),
      (∀ l ∈ anc, l.useCapture = false ∧ l.node ≠ doc) →
      dispatch (doc :: rest) (likeListener002 doc i :: anc) =
        { ran := [i], stopped := true, stoppedImmediate := true,
          prevented := true }) ∧
    (∀ doc i, (likeListener001 doc i).useCapture = false) := by
  refine ⟨?_, ?_, fun _ _ => rfl⟩
  · intro doc i rest anc hanc
    exact dispatch_capture_doc doc rest (likeListener000 doc i) anc rfl rfl rfl hanc
  · intro doc i rest anc hanc
    exact dispatch_capture_doc doc rest (likeListener002 doc i) anc rfl rfl rfl hanc

/-- Counterexample to C2 as stated: the part_001 variant intercepts only
in the bubbling phase, so on the path document(0) > card(1) > button(2)
with a card-level click handler (id 20) the card handler both runs and
runs before the like listener (id 10): the click does reach an ancestor
click handler. -/
theorem like_bubble_reaches_ancestor :
    (dispatch [0, 1, 2]
      [likeListener001 0 10,
       ⟨20, 1, false, false, false, false⟩]).ran = [20, 10] := by decide

/-- Witness for C2 (amended): the part_000 capture listener on the path
document(0) > card(1) > button(2) with a card-level bubbling handler:
only the like listener runs and the default action is cancelled. -/
theorem like_capture_intercepts_witness :
    dispatch [0, 1, 2]
      (likeListener000 0 5 :: [⟨20, 1, false, false, false, false⟩]) =
      { ran := [5], stopped := true, stoppedImmediate := false,
        prevented := true } :=
  like_capture_intercepts.1 0 5 [1, 2]
    [⟨20, 1, false, false, false, false⟩] (by decide)

theorem repeatClicks_of_noop (step : LikeButton → LikeButton × Bool)
    (hstep : ∀ b, b.loading = true → step b = (b, false)) :
    ∀ (n : Nat) (b : LikeButton), b.loading = true →
      repeatClicks step n b = (b, 0)
  | 0, _, _ => rfl
  | n + 1, b, h => by
    simp only [repeatClicks, hstep b h]
    rw [repeatClicks_of_noop step hstep n b h]
    rfl

/-- C5 (confirmed): in part_000 and part_002 a click finding the loading
flag set is a no-op that mutates nothing and issues no request, and any
burst of one or more repeated clicks on an idle button with a post id,
with no settle event in between, issues exactly one request. -/
theorem pending_clicks_single_request :
    (∀ b : LikeButton, b.loading = true → Part000.beginClick b = (b, false)) ∧
    (∀ b : LikeButton, b.loading = true → Part002.beginToggle b = (b, false)) ∧
    (∀ (b : LikeButton) (pid : String) (n : Nat),
      b.postId = some pid → b.loading = false →
      (repeatClicks Part000.beginClick (n + 1) b).2 = 1) ∧
    (∀ (b : LikeButton) (pid : String) (n : Nat),
      b.postId = some pid → b.loading = false →
      (repeatClicks Part002.beginToggle (n + 1) b).2 = 1) := by
  have h000 : ∀ b : LikeButton, b.loading = true →
      Part000.beginClick b = (b, false) := by
    intro b h
    cases hp : b.postId <;> simp [Part000.beginClick, hp, h]
  have h002 : ∀ b : LikeButton, b.loading = true →
      Part002.beginToggle b = (b, false) := by
    intro b h
    cases hp : b.postId <;> simp [Part002.beginToggle, hp, h]
  refine ⟨h000, h002, ?_, ?_⟩
  · intro b pid n hpid hload
    simp only [repeatClicks, Part000.beginClick, hpid, hload]
    rw [repeatClicks_of_noop Part000.beginClick h000 n _ rfl]
    simp
  · intro b pid n hpid hload
    simp only [repeatClicks, Part002.beginToggle, hpid, hload]
    rw [repeatClicks_of_noop Part002.beginToggle h002 n _ rfl]
    simp

/-- Witness for C5: three rapid clicks on the idle sample button issue
exactly one request in both variants, and a click on the in-flight
version of the button is a no-op. -/
theorem pending_clicks_single_request_witness :
    (repeatClicks Part000.beginClick 3 idleBtn).2 = 1 ∧
    (repeatClicks Part002.beginToggle 3 idleBtn).2 = 1 ∧
    Part000.beginClick { idleBtn with loading := true } =
      ({ idleBtn with loading := true }, false) :=
  ⟨pending_clicks_single_request.2.2.1 idleBtn "42" 2 rfl rfl,
   pending_clicks_single_request.2.2.2 idleBtn "42" 2 rfl rfl,
   pending_clicks_single_request.1 { idleBtn with loading := true } rfl⟩

theorem setBtn_getElem (l : List LikeButton) (i : Nat)
    (f : LikeButton → LikeButton) (b : LikeButton) (h : l[i]? = some b) :
    (setBtn l i f)[i]? = some (f b) := by
  have hlt : i < l.length := by
    by_contra hge
    rw [List.getElem?_eq_none (Nat.le_of_not_lt hge)] at h
    exact Option.noConfusion h
  simp only [setBtn, h]
  exact List.getElem?_set_eq_of_lt (f b) hlt

theorem processOutcome002_length (page : List LikeButton) (pid : String)
    (out : FetchOutcome) :
    (Part002.processOutcome page pid out).1.length = page.length := by
  rcases out with ⟨status, body⟩ | _
  · by_cases h401 : status = 401
    · simp [Part002.processOutcome, h401]
    · by_cases hok : resOk status = true
      · rcases body with _ | d
        · simp [Part002.processOutcome, h401, hok]
        · by_cases hdo : d.ok = true
          · simp [Part002.processOutcome, h401, hok, hdo,
              Part002.updateButtons]
          · simp at hdo
            simp [Part002.processOutcome, h401, hok, hdo]
      · simp at hok
        simp [Part002.processOutcome, h401, hok]
  · rfl

/-- C6 (confirmed): whenever a handler issues a request, the in-flight
flag and the disabled or loading visual state are set synchronously
before the fetch, the request is recorded, and for every way the fetch
can settle (success, handled failure, or exception) the flags on the
clicked button are cleared when the handler exits. -/
theorem inflight_flag_lifecycle :
    (∀ (b : LikeButton) (pid : String) (out : FetchOutcome),
      b.postId = some pid → b.loading = false →
      Part000.beginClick b = ({ b with loading := true, disabled := true }, true) ∧
      Effect.request ("/api/like/" ++ pid) ∈ (Part000.clickHandler b out).2 ∧
      (Part000.clickHandler b out).1.loading = false ∧
      (Part000.clickHandler b out).1.disabled = false) ∧
    (∀ (b : LikeButton) (pid : String) (out : FetchOutcome),
      b.postId = some pid → b.isLoading = false →
      Effect.request ("/api/like/" ++ pid) ∈ (Part001.handlePostLike b out).2.1 ∧
      (Part001.handlePostLike b out).1.isLoading = false) ∧
    (∀ (page : List LikeButton) (i : Nat) (b : LikeButton) (pid : String)
       (out : FetchOutcome),
      page[i]? = some b → b.postId = some pid → b.loading = false →
      Part002.beginToggle b =
        ({ b with loading := true, disabled := true, isLoading := true }, true) ∧
      Effect.request ("/api/like/" ++ pid) ∈ (Part002.toggleLike page i out).2 ∧
      ∃ c, ((Part002.toggleLike page i out).1)[i]? = some c ∧
        c.loading = false ∧ c.disabled = false ∧ c.isLoading = false) := by
  refine ⟨?_, ?_, ?_⟩
  · intro b pid out hpid hload
    refine ⟨by simp [Part000.beginClick, hpid, hload], ?_, ?_, ?_⟩ <;>
      simp [Part000.clickHandler, hpid, hload, Part000.finallyClear]
  · intro b pid out hpid hload
    rcases out with ⟨status, body⟩ | _
    · rcases body with _ | d
      · simp [Part001.handlePostLike, Part001.postJson, hpid, hload]
      · by_cases hfail : (!resOk status || !d.ok) = true
        · by_cases herr : d.error = some "login_required" <;>
            simp [Part001.handlePostLike, Part001.postJson, hpid, hload,
              hfail, herr]
        · simp only [Bool.not_eq_true] at hfail
          simp [Part001.handlePostLike, Part001.postJson, hpid, hload, hfail]
    · simp [Part001.handlePostLike, Part001.postJson, hpid, hload]
  · intro page i b pid out hi hpid hload
    refine ⟨by simp [Part002.beginToggle, hpid, hload], ?_, ?_⟩
    · simp [Part002.toggleLike, hi, hpid, hload]
    · have hlen : (Part002.processOutcome
          (page.set i { b with postId := some pid, loading := true,
                               disabled := true, isLoading := true })
          pid out).1.length = page.length := by
        rw [processOutcome002_length, List.length_set]
      have hlt : i < page.length := by
        by_contra hge
        rw [List.getElem?_eq_none (Nat.le_of_not_lt hge)] at hi
        exact Option.noConfusion hi
      obtain ⟨c', hc'⟩ : ∃ c', (Part002.processOutcome
          (page.set i { b with postId := some pid, loading := true,
                               disabled := true, isLoading := true })
          pid out).1[i]? = some c' := by
        have hlt2 : i < (Part002.processOutcome
            (page.set i { b with postId := some pid, loading := true,
                                 disabled := true, isLoading := true })
            pid out).1.length := by
          rw [hlen]; exact hlt
        exact ⟨_, List.getElem?_eq_some.mpr ⟨hlt2, rfl⟩⟩
      refine ⟨{ c' with loading := false, disabled := false, isLoading := false },
        ?_, rfl, rfl, rfl⟩
      simp only [Part002.toggleLike, hi, hpid, hload]
      simp only [Bool.false_eq_true, if_false]
      exact setBtn_getElem _ i _ c' hc'

/-- Witness for C6: the sample idle button; flags are set by the
synchronous prefix, the request is issued, and after a network error
settles the handler every flag is back to false. -/
theorem inflight_flag_lifecycle_witness :
    Part000.beginClick idleBtn =
      ({ idleBtn with loading := true, disabled := true }, true) ∧
    (Part000.clickHandler idleBtn FetchOutcome.networkError).1.loading = false ∧
    (Part000.clickHandler idleBtn FetchOutcome.networkError).1.disabled = false ∧
    (Part001.handlePostLike idleBtn FetchOutcome.networkError).1.isLoading = false ∧
    Effect.request "/api/like/42" ∈
      (Part002.toggleLike [idleBtn] 0 FetchOutcome.networkError).2 := by
  have h0 := inflight_flag_lifecycle.1 idleBtn "42" .networkError rfl rfl
  have h1 := inflight_flag_lifecycle.2.1 idleBtn "42" .networkError rfl rfl
  have h2 := inflight_flag_lifecycle.2.2 [idleBtn] 0 idleBtn "42"
    .networkError rfl rfl rfl
  exact ⟨h0.1, h0.2.2.1, h0.2.2.2, h1.2, h2.2.1⟩

/-- C3 (corrected): a 401 never changes the displayed liked-state or
count in either variant; part_000 always surfaces the blocking login
notice, while part_001 redirects to the login page exactly when the 401
payload parses and carries the error string login_required, and is
silent on any other 401. -/
theorem unauthorized_handling :
    (∀ (b : LikeButton) (pid : String) (body : Option RespBody),
      b.postId = some pid → b.loading = false →
      Effect.alert "ログインしてね" ∈
        (Part000.clickHandler b (.response 401 body)).2 ∧
      displayed (Part000.clickHandler b (.response 401 body)).1 =
        displayed b) ∧
    (∀ (b : LikeButton) (pid : String) (body : Option RespBody),
      b.postId = some pid → b.isLoading = false →
      displayed (Part001.handlePostLike b (.response 401 body)).1 =
        displayed b ∧
      (Effect.redirect "/login" ∈
          (Part001.handlePostLike b (.response 401 body)).2.1 ↔
        body.map RespBody.error = some (some "login_required"))) := by
  have h401ok : resOk 401 = false := by decide
  refine ⟨?_, ?_⟩
  · intro b pid body hpid hload
    constructor <;>
      simp [Part000.clickHandler, Part000.processOutcome, hpid, hload,
        Part000.finallyClear, displayed]
  · intro b pid body hpid hload
    rcases body with _ | d
    · simp [Part001.handlePostLike, Part001.postJson, hpid, hload, displayed]
    · by_cases herr : d.error = some "login_required" <;>
        simp [Part001.handlePostLike, Part001.postJson, hpid, hload,
          h401ok, herr, displayed]

/-- Counterexample to C3 as stated: in part_001 a 401 whose body is
absent or fails to parse surfaces nothing at all; the only effect of the
whole toggle is the issued request, with no login notice and no
redirect. -/
theorem unauthorized_silent_in_part001 :
    (Part001.handlePostLike idleBtn (FetchOutcome.response 401 none)).2.1 =
      [Effect.request "/api/like/42"] := by decide

/-- Witness for C3 (amended): part_000 alerts the login notice on a
bare 401 and leaves the displayed state of the sample button intact. -/
theorem unauthorized_handling_witness :
    Effect.alert "ログインしてね" ∈
      (Part000.clickHandler idleBtn (FetchOutcome.response 401 none)).2 ∧
    displayed (Part000.clickHandler idleBtn (FetchOutcome.response 401 none)).1 =
      displayed idleBtn :=
  unauthorized_handling.1 idleBtn "42" none rfl rfl

/-- C4 (corrected): part_000 surfaces the advertised notices (generic
API failure on a non-2xx non-401 status, the server error string or the
generic fallback when a 2xx payload carries ok false, and the
connection notice on a network or parse exception) and always leaves
the displayed state unchanged.  part_001 also leaves the displayed
state unchanged on every failing outcome, but it never surfaces any
notice: no alert is ever emitted, and a network error escapes the
handler unhandled with the request as its only effect. -/
theorem failure_handling :
    (∀ (b : LikeButton) (pid : String) (status : Nat) (body : Option RespBody),
      b.postId = some pid → b.loading = false → status ≠ 401 →
      resOk status = false →
      Effect.alert "いいね失敗（APIエラー）" ∈
        (Part000.clickHandler b (.response status body)).2 ∧
      displayed (Part000.clickHandler b (.response status body)).1 =
        displayed b) ∧
    (∀ (b : LikeButton) (pid : String) (status : Nat) (d : RespBody),
      b.postId = some pid → b.loading = false → resOk status = true →
      d.ok = false →
      Effect.alert (jsOrElse d.error "いいね失敗") ∈
        (Part000.clickHandler b (.response status (some d))).2 ∧
      displayed (Part000.clickHandler b (.response status (some d))).1 =
        displayed b) ∧
    (∀ (b : LikeButton) (pid : String),
      b.postId = some pid → b.loading = false →
      Effect.alert "通信エラー" ∈ (Part000.clickHandler b .networkError).2 ∧
      displayed (Part000.clickHandler b .networkError).1 = displayed b) ∧
    (∀ (b : LikeButton) (pid : String) (status : Nat),
      b.postId = some pid → b.loading = false → resOk status = true →
      Effect.alert "通信エラー" ∈
        (Part000.clickHandler b (.response status none)).2 ∧
      displayed (Part000.clickHandler b (.response status none)).1 =
        displayed b) ∧
    (∀ (b : LikeButton) (out : FetchOutcome) (msg : String),
      Effect.alert msg ∉ (Part001.handlePostLike b out).2.1) ∧
    (∀ (b : LikeButton) (status : Nat) (body : Option RespBody),
      b.isLoading = false →
      (resOk status = false ∨ ∀ d, body = some d → d.ok = false) →
      displayed (Part001.handlePostLike b (.response status body)).1 =
        displayed b) ∧
    (∀ (b : LikeButton) (pid : String),
      b.postId = some pid → b.isLoading = false →
      (Part001.handlePostLike b .networkError).2.1 =
        [Effect.request ("/api/like/" ++ pid)] ∧
      (Part001.handlePostLike b .networkError).2.2 = true ∧
      displayed (Part001.handlePostLike b .networkError).1 = displayed b) := by
  refine ⟨?_, ?_, ?_, ?_, ?_, ?_, ?_⟩
  · intro b pid status body hpid hload h401 hok
    constructor <;>
      simp [Part000.clickHandler, Part000.processOutcome, hpid, hload, h401,
        hok, Part000.finallyClear, displayed]
  · intro b pid status d hpid hload hok hdo
    have h401 : status ≠ 401 := by
      intro h
      subst h
      exact absurd hok (by decide)
    constructor <;>
      simp [Part000.clickHandler, Part000.processOutcome, hpid, hload, h401,
        hok, hdo, Part000.finallyClear, displayed]
  · intro b pid hpid hload
    constructor <;>
      simp [Part000.clickHandler, Part000.processOutcome, hpid, hload,
        Part000.finallyClear, displayed]
  · intro b pid status hpid hload hok
    have h401 : status ≠ 401 := by
      intro h
      subst h
      exact absurd hok (by decide)
    constructor <;>
      simp [Part000.clickHandler, Part000.processOutcome, hpid, hload, h401,
        hok, Part000.finallyClear, displayed]
  · intro b out msg
    by_cases hload : b.isLoading = true
    · simp [Part001.handlePostLike, hload]
    · simp only [Bool.not_eq_true] at hload
      cases hp : b.postId with
      | none => simp [Part001.handlePostLike, hload, hp]
      | some pid =>
        rcases out with ⟨status, body⟩ | _
        · rcases body with _ | d
          · simp [Part001.handlePostLike, Part001.postJson, hload, hp]
          · by_cases hfail : (!resOk status || !d.ok) = true
            · by_cases herr : d.error = some "login_required" <;>
                simp [Part001.handlePostLike, Part001.postJson, hload, hp,
                  hfail, herr]
            · simp only [Bool.not_eq_true] at hfail
              simp [Part001.handlePostLike, Part001.postJson, hload, hp, hfail]
        · simp [Part001.handlePostLike, Part001.postJson, hload, hp]
  · intro b status body hload hfailP
    cases hp : b.postId with
    | none => simp [Part001.handlePostLike, hload, hp]
    | some pid =>
      rcases body with _ | d
      · simp [Part001.handlePostLike, Part001.postJson, hload, hp, displayed]
      · have hfail : (!resOk status || !d.ok) = true := by
          rcases hfailP with hr | hall
          · simp [hr]
          · simp [hall d rfl]
        by_cases herr : d.error = some "login_required" <;>
          simp [Part001.handlePostLike, Part001.postJson, hload, hp, hfail,
            herr, displayed]
  · intro b pid hpid hload
    refine ⟨?_, ?_, ?_⟩ <;>
      simp [Part001.handlePostLike, Part001.postJson, hpid, hload, displayed]

/-- Counterexample to C4 as stated: in part_001 a 500 response whose
payload even carries a server error string surfaces no failure notice
whatsoever; the issued request is the only effect of the toggle. -/
theorem failure_silent_in_part001 :
    (Part001.handlePostLike
        ⟨some "7", false, false, false, false, none, none, none, none⟩
        (FetchOutcome.response 500
          (some ⟨false, some "server_error", false, 0⟩))).2.1 =
      [Effect.request "/api/like/7"] := by decide

/-- Witness for C4 (amended): part_000 alerts the generic API failure
notice on a 500 response and leaves the displayed state of the sample
button unchanged. -/
theorem failure_handling_witness :
    Effect.alert "いいね失敗（APIエラー）" ∈
      (Part000.clickHandler idleBtn (FetchOutcome.response 500 none)).2 ∧
    displayed (Part000.clickHandler idleBtn (FetchOutcome.response 500 none)).1 =
      displayed idleBtn :=
  failure_handling.1 idleBtn "42" 500 none rfl rfl (by decide) (by decide)

theorem updateButtons_props (page : List LikeButton) (pid : String)
    (liked : Bool) (likes : Nat) :
    ∀ c ∈ Part002.updateButtons page pid liked likes, c.postId = some pid →
      c.active = liked ∧
      c.ariaPressed = some (if liked then "true" else "false") ∧
      c.datasetLiked = some (if liked then "1" else "0") ∧
      (c.icon.isSome = true → c.icon = some (if liked then "❤️" else "🤍")) ∧
      (c.count.isSome = true → c.count = some (toString likes)) := by
  intro c hc hcpid
  simp only [Part002.updateButtons, List.mem_map] at hc
  obtain ⟨a, _, hfa⟩ := hc
  by_cases hap : a.postId = some pid
  · rw [if_pos hap] at hfa
    subst hfa
    refine ⟨rfl, rfl, rfl, ?_, ?_⟩
    · cases hic : a.icon <;> simp [hic]
    · cases hcn : a.count <;> simp [hcn]
  · rw [if_neg hap] at hfa
    subst hfa
    exact absurd hcpid hap

/-- C1 (corrected): in the part_002 variant, a toggle whose response is
2xx with an ok payload updates every on-page button bound to the post
id, not only the clicked one: each such button ends with the active
class matching liked, the matching aria-pressed value, the matching
data-liked value, the matching heart glyph when it has an icon child
and the new count text when it has a count child.  The part_000 and
part_001 variants update only the clicked element. -/
theorem success_updates_all_bound (page : List LikeButton) (i : Nat)
    (b : LikeButton) (pid : String) (status : Nat) (d : RespBody)
    (hi : page[i]? = some b) (hpid : b.postId = some pid)
    (hload : b.loading = false) (hok : resOk status = true)
    (hdo : d.ok = true) :
    ∀ c ∈ (Part002.toggleLike page i (.response status (some d))).1,
      c.postId = some pid →
      c.active = d.liked ∧
      c.ariaPressed = some (if d.liked then "true" else "false") ∧
      c.datasetLiked = some (if d.liked then "1" else "0") ∧
      (c.icon.isSome = true → c.icon = some (if d.liked then "❤️" else "🤍")) ∧
      (c.count.isSome = true → c.count = some (toString d.likes)) := by
  have h401 : status ≠ 401 := by
    intro h
    subst h
    exact absurd hok (by decide)
  have hlt : i < page.length := by
    by_contra hge
    rw [List.getElem?_eq_none (Nat.le_of_not_lt hge)] at hi
    exact Option.noConfusion hi
  have hproc : Part002.processOutcome
      (page.set i { b with postId := some pid, loading := true,
                           disabled := true, isLoading := true })
      pid (.response status (some d)) =
      (Part002.updateButtons
        (page.set i { b with postId := some pid, loading := true,
                             disabled := true, isLoading := true })
        pid d.liked d.likes, []) := by
    simp [Part002.processOutcome, h401, hok, hdo]
  simp only [Part002.toggleLike, hi, hpid, hload]
  simp only [Bool.false_eq_true, if_false]
  rw [hproc]
  obtain ⟨u, hu⟩ : ∃ u, (Part002.updateButtons
      (page.set i { b with postId := some pid, loading := true,
                           disabled := true, isLoading := true })
      pid d.liked d.likes)[i]? = some u := by
    have hlt2 : i < (Part002.updateButtons
        (page.set i { b with postId := some pid, loading := true,
                             disabled := true, isLoading := true })
        pid d.liked d.likes).length := by
      simp only [Part002.updateButtons, List.length_map, List.length_set]
      exact hlt
    exact ⟨_, List.getElem?_eq_some.mpr ⟨hlt2, rfl⟩⟩
  simp only [setBtn, hu]
  intro c hc hcpid
  rcases List.mem_or_eq_of_mem_set hc with hcu | hceq
  · exact updateButtons_props _ pid d.liked d.likes c hcu hcpid
  · subst hceq
    have hupid : u.postId = some pid := hcpid
    have hprops := updateButtons_props _ pid d.liked d.likes u
      (List.getElem?_mem hu) hupid
    exact hprops

/-- Counterexample to C1 as stated: in the part_000 variant a page with
two buttons bound to post id 42, a click on the first and the success
response liked true, likes 4: the handler updates only the clicked
button, so it is not the case that every element bound to the id shows
the new liked state. -/
theorem single_button_update_misses_duplicates :
    ¬ (∀ c ∈ (Part000.clickHandlerPage [idleBtn, idleBtn] 0
          (FetchOutcome.response 200 (some ⟨true, none, true, 4⟩))).1,
        c.postId = some "42" → c.active = true) := by decide

/-- Witness for C1 (amended): the same page and response through the
part_002 variant; the updated record (liked, pressed, filled heart,
count 4) is what every button bound to id 42 now shows. -/
theorem success_updates_all_bound_witness :
    (⟨some "42", false, false, false, true, some "true", some "1",
      some "❤️", some "4"⟩ : LikeButton) ∈
      (Part002.toggleLike [idleBtn, idleBtn] 0
        (FetchOutcome.response 200 (some ⟨true, none, true, 4⟩))).1 ∧
    (⟨some "42", false, false, false, true, some "true", some "1",
      some "❤️", some "4"⟩ : LikeButton).active = true ∧
    (⟨some "42", false, false, false, true, some "true", some "1",
      some "❤️", some "4"⟩ : LikeButton).count = some "4" := by
  have h := success_updates_all_bound [idleBtn, idleBtn] 0 idleBtn "42" 200
    ⟨true, none, true, 4⟩ rfl rfl rfl (by decide) rfl
  have hm : (⟨some "42", false, false, false, true, some "true", some "1",
      some "❤️", some "4"⟩ : LikeButton) ∈
      (Part002.toggleLike [idleBtn, idleBtn] 0
        (FetchOutcome.response 200 (some ⟨true, none, true, 4⟩))).1 := by
    decide
  exact ⟨hm, (h _ hm rfl).1, (h _ hm rfl).2.2.2.2 rfl⟩

/-- C10 (confirmed): in part_001 postJson never rejects on an HTTP
response: the JSON parse error of an absent or invalid body is swallowed
and the helper resolves with data null, after which handlePostLike
returns without mutating the button and without an escaping
exception. -/
theorem postJson_swallows_parse_errors :
    (∀ (status : Nat) (body : Option RespBody),
      (Part001.postJson (.response status body)).isSome = true) ∧
    (∀ status : Nat, Part001.postJson (.response status none) =
      some { ok := resOk status, status := status, data := none }) ∧
    (∀ (b : LikeButton) (status : Nat), b.isLoading = false →
      (Part001.handlePostLike b (.response status none)).1 = b ∧
      (Part001.handlePostLike b (.response status none)).2.2 = false) := by
  refine ⟨fun _ _ => rfl, fun _ => rfl, ?_⟩
  intro b status hload
  obtain ⟨p, lo, di, il, ac, ap, dl, ic, cn⟩ := b
  simp only at hload
  subst hload
  cases p with
  | none => exact ⟨rfl, rfl⟩
  | some pid => exact ⟨rfl, rfl⟩

/-- Witness for C10: a 500 response with an unparsable body; postJson
resolves with data null and the handler leaves the sample button
exactly as it was, with no escaping exception. -/
theorem postJson_swallows_parse_errors_witness :
    Part001.postJson (FetchOutcome.response 500 none) =
      some ⟨false, 500, none⟩ ∧
    (Part001.handlePostLike idleBtn (FetchOutcome.response 500 none)).1 =
      idleBtn ∧
    (Part001.handlePostLike idleBtn (FetchOutcome.response 500 none)).2.2 =
      false := by
  have h := postJson_swallows_parse_errors
  exact ⟨(h.2.1 500).trans (by decide), (h.2.2 idleBtn 500 rfl).1,
    (h.2.2 idleBtn 500 rfl).2⟩
